import Mathlib

/-
Verification of the PartsToPixels LED-sign stack against its specification.

The development shallowly embeds the relevant parts of the code base:

  * `sender.c` / `socket.c` / `socket.h` — the Transport: row-packet and
    commit-packet construction, brightness consumption;
  * `direct.ts` — the Orchestrator: queue backpressure and the brightness
    subscriber;
  * `sense.ts` — the Ambient controller: the rate-limited brightness
    publisher;
  * `player.ts` — the Renderer: `adjustColorForBrightness` and
    `Player.play`.

Bytes are modelled as `ℕ` (with `% 256` where the C code stores into
`uint8_t`), C `int` values as `ℤ`, and JavaScript number arithmetic as
exact rational arithmetic over `ℚ` (all operations involved are monotone
under IEEE rounding, so the properties proved are stable under the
idealisation).  Buffers are `List ℕ`.
-/

namespace P2P

-- ────────────────────────────────────────────────────────────────────
-- Constants from sender.c and socket.h
-- ────────────────────────────────────────────────────────────────────

/-- `SIGN_WIDTH` (sender.c): pixels per row. -/
def SIGN_WIDTH : ℕ := 320

/-- `SIGN_HEIGHT` (sender.c): rows (scanlines). -/
def SIGN_HEIGHT : ℕ := 64

/-- `BYTES_PER_PIXEL` (sender.c): RGBA from the player's canvas. -/
def BYTES_PER_PIXEL : ℕ := 4

/-- `ROW_HEADER_SIZE` (sender.c): FPGA row header bytes. -/
def ROW_HEADER_SIZE : ℕ := 7

/-- `FRAME_DATA_LENGTH` (socket.h): frame commit packet size in bytes. -/
def FRAME_DATA_LENGTH : ℕ := 98

/-- `FRAME_BRIGHTNESS_OFFSET` (socket.h): global brightness byte. -/
def FRAME_BRIGHTNESS_OFFSET : ℕ := 21

/-- `FRAME_GAMMA_FLAG_OFFSET` (socket.h): gamma correction flag byte. -/
def FRAME_GAMMA_FLAG_OFFSET : ℕ := 22

/-- `FRAME_BRIGHTNESS_R_OFFSET` (socket.h): per-channel red brightness. -/
def FRAME_BRIGHTNESS_R_OFFSET : ℕ := 24

/-- `FRAME_BRIGHTNESS_G_OFFSET` (socket.h): per-channel green brightness. -/
def FRAME_BRIGHTNESS_G_OFFSET : ℕ := 25

/-- `FRAME_BRIGHTNESS_B_OFFSET` (socket.h): per-channel blue brightness. -/
def FRAME_BRIGHTNESS_B_OFFSET : ℕ := 26

-- ────────────────────────────────────────────────────────────────────
-- socket.c: frame commit packet (`send_frame`)
-- ────────────────────────────────────────────────────────────────────

/--
The 98-byte frame commit payload produced by `send_frame` (socket.c,
lines 150–157) for hardware brightness `b`.  `frame_data` is a
`static uint8_t frame_data[FRAME_DATA_LENGTH] = {0}` template; every call
overwrites exactly the five named offsets, so the payload of every commit
packet is the zero buffer with those five bytes set.  Storing the C `int`
`current_brightness` into a `uint8_t` slot truncates modulo 256.
-/
def commitPayload (b : ℕ) : List ℕ :=
  (List.replicate FRAME_DATA_LENGTH 0
    |>.set FRAME_BRIGHTNESS_OFFSET (b % 256)
    |>.set FRAME_GAMMA_FLAG_OFFSET 5
    |>.set FRAME_BRIGHTNESS_R_OFFSET (b % 256)
    |>.set FRAME_BRIGHTNESS_G_OFFSET (b % 256)
    |>.set FRAME_BRIGHTNESS_B_OFFSET (b % 256))

-- ────────────────────────────────────────────────────────────────────
-- socket.c / sender.c: brightness consumption
-- ────────────────────────────────────────────────────────────────────

/--
`set_brightness` (socket.c, lines 133–141): clamp the argument into
`[0,255]` and return the new `current_brightness`.
-/
def set_brightness (b : ℤ) : ℤ :=
  if b < 0 then 0 else if 255 < b then 255 else b

/--
The brightness-application step of `process_and_send_frame` (sender.c,
lines 118–125).  `reply` is the result of `GET sender:brightness`:
`none` when the key is absent (or the reply is not a string), otherwise
`some v` where `v` is the value `atoi` computes from the reply string.
The guard `brightness >= 0 && brightness <= 255` means `set_brightness`
is invoked only for in-range values; out-of-range strings leave
`current_brightness` (`current`) unchanged.
-/
def processBrightnessReply (current : ℤ) (reply : Option ℤ) : ℤ :=
  match reply with
  | none => current
  | some v => if 0 ≤ v ∧ v ≤ 255 then set_brightness v else current

/--
The Orchestrator's brightness subscriber (direct.ts, lines 131–135):
`player.brightness = Number(message)` — the numeric value of the message
is assigned to the Renderer as is.  `message` is the numeric value the
handler parses from the channel payload.
-/
def brightnessMessageHandler (message : ℤ) : ℤ := message

-- ────────────────────────────────────────────────────────────────────
-- sender.c: row packets and the per-frame emission sequence
-- ────────────────────────────────────────────────────────────────────

/-- A packet sent to the FPGA: row data (EtherType 0x5500) or a frame
commit (EtherType 0x0107), carrying its payload bytes. -/
inductive FpgaPacket where
  | row (payload : List ℕ)
  | commit (payload : List ℕ)
deriving DecidableEq

/-- Whether a packet is a row packet. -/
def FpgaPacket.isRow : FpgaPacket → Bool
  | .row _ => true
  | .commit _ => false

/-- Whether a packet is a commit packet. -/
def FpgaPacket.isCommit : FpgaPacket → Bool
  | .row _ => false
  | .commit _ => true

/-- The payload bytes of a packet. -/
def FpgaPacket.payload : FpgaPacket → List ℕ
  | .row p => p
  | .commit p => p

/-- The row index a row packet carries: byte 0 of its payload
(`hdr->row`). -/
def FpgaPacket.rowIndex (p : FpgaPacket) : ℕ := p.payload.headD 0

/--
The three wire bytes for pixel `i` of a frame (sender.c, lines 162–167):
the canvas stores BGRA, so the sender emits `src[2], src[1], src[0]`
(R, G, B) and skips `src[3]` (alpha), where `src = matrix_str + 4·i`.
-/
def pixelTriple (frame : List ℕ) (i : ℕ) : List ℕ :=
  [frame.getD (4 * i + 2) 0, frame.getD (4 * i + 1) 0, frame.getD (4 * i) 0]

/--
The 960 RGB bytes of row `row` (sender.c inner column loop).  `src` runs
over the frame without being reset between rows, so the pixel index for
column `col` of row `row` is `row * SIGN_WIDTH + col`.
-/
def rowPixelBytes (frame : List ℕ) (row : ℕ) : List ℕ :=
  (List.range SIGN_WIDTH).flatMap fun col => pixelTriple frame (row * SIGN_WIDTH + col)

/--
The 7-byte FPGA row header (sender.c, lines 151–158; `fpga_row_header_t`
in socket.h): row index, two reserved zero bytes, pixel count as a
big-endian `u16`, and the two protocol flag bytes `0x08, 0x88`.  All
fields are `uint8_t`, hence the `% 256`.
-/
def rowHeader (row : ℕ) : List ℕ :=
  [row % 256, 0, 0, SIGN_WIDTH / 2 ^ 8 % 256, SIGN_WIDTH % 256, 0x08, 0x88]

/-- The full payload of the row packet for `row`: header then pixels. -/
def rowPacketPayload (frame : List ℕ) (row : ℕ) : List ℕ :=
  rowHeader row ++ rowPixelBytes frame row

/-- The row packets `process_and_send_frame` emits for one frame:
`for (int row = 0; row < SIGN_HEIGHT; row++) … send_row(…)`. -/
def rowPackets (frame : List ℕ) : List FpgaPacket :=
  (List.range SIGN_HEIGHT).map fun row => FpgaPacket.row (rowPacketPayload frame row)

/--
`process_and_send_frame` (sender.c, lines 104–173), restricted to its
emission behaviour on a dequeued frame: if the frame length is not
exactly `SIGN_WIDTH * SIGN_HEIGHT * BYTES_PER_PIXEL` the frame is dropped
(`return -1`, modelled as `none`); otherwise the 64 row packets are sent
and the function returns 0 (modelled as `some` of the packets sent).
-/
def process_and_send_frame (frame : List ℕ) : Option (List FpgaPacket) :=
  if frame.length = SIGN_WIDTH * SIGN_HEIGHT * BYTES_PER_PIXEL then
    some (rowPackets frame)
  else none

/--
The packets one iteration of `main`'s loop (sender.c, lines 207–252)
emits for a dequeued frame, given the hardware brightness `b` in effect
at commit time.  On success `main` waits out the frame budget and then
calls `send_frame()`, so the commit packet follows all 64 row packets of
the same frame; on failure (`-1`) it backs off and emits nothing.
-/
def senderIteration (b : ℕ) (frame : List ℕ) : List FpgaPacket :=
  match process_and_send_frame frame with
  | some rows => rows ++ [FpgaPacket.commit (commitPayload b)]
  | none => []

-- ────────────────────────────────────────────────────────────────────
-- direct.ts: Orchestrator main-loop backpressure
-- ────────────────────────────────────────────────────────────────────

/--
The length `LLEN player:frames` returns when the Orchestrator re-checks
the queue after the 5 ms `SENDER_WAIT_MS` grace period (direct.ts,
line 176), under the modelling assumption of C5 that the Transport never
pops: nothing is removed between the push and the re-check, so the
re-read length equals the length `n` just after the push.
-/
def recheckLen (n : ℕ) : ℕ := n

/--
One iteration of the Orchestrator main loop (direct.ts, lines 160–188)
acting on the queue length, with the Transport never popping.  `rpush`
returns `n + 1`; if that equals `fps` the loop waits, re-reads the
length, and — if still `fps` — `del`s the key (length 0).
-/
def directorStep (fps n : ℕ) : ℕ :=
  if n + 1 = fps then
    if recheckLen (n + 1) = fps then 0 else recheckLen (n + 1)
  else n + 1

/-- Queue length after `k` Orchestrator iterations starting from the
empty queue, with the Transport never popping. -/
def queueLen (fps : ℕ) : ℕ → ℕ
  | 0 => 0
  | k + 1 => directorStep fps (queueLen fps k)

-- ────────────────────────────────────────────────────────────────────
-- sense.ts: Ambient controller brightness rate limiter
-- ────────────────────────────────────────────────────────────────────

/-- `BRIGHTNESS_MIN` (sense.ts): lowest output value. -/
def BRIGHTNESS_MIN : ℤ := 1

/-- `BRIGHTNESS_MAX` (sense.ts): highest output value. -/
def BRIGHTNESS_MAX : ℤ := 100

/-- `BRIGHTNESS_INC_MAX` (sense.ts): max step per cycle. -/
def BRIGHTNESS_INC_MAX : ℤ := 5

/--
The decision core of `updateBrightness` (sense.ts, lines 330–361) for a
cycle whose `luxToBrightness` result is `target`: if `diff` is zero,
nothing is published (`none`); otherwise the change is rate-limited to
`±BRIGHTNESS_INC_MAX`, clamped into `[BRIGHTNESS_MIN, BRIGHTNESS_MAX]`,
stored as the new `currentBrightness` and published (`some`).
`Math.sign`/`Math.min`/`Math.abs`/`Math.max` act on integers here, so
they are `Int.sign`, `min`, `abs` and `max`.
-/
def updateBrightnessStep (current target : ℤ) : Option ℤ :=
  let diff := target - current
  if diff = 0 then none
  else
    let inc := diff.sign * min |diff| BRIGHTNESS_INC_MAX
    some (max (min (current + inc) BRIGHTNESS_MAX) BRIGHTNESS_MIN)

/--
The sequence of brightness values the Ambient controller publishes when
the successive `luxToBrightness` targets are `targets`, starting from
`currentBrightness = current`.  Cycles with `diff == 0` publish nothing
and leave `currentBrightness` unchanged.
-/
def publishedSeq (current : ℤ) : List ℤ → List ℤ
  | [] => []
  | t :: ts =>
    match updateBrightnessStep current t with
    | none => publishedSeq current ts
    | some b => b :: publishedSeq b ts

-- ────────────────────────────────────────────────────────────────────
-- player.ts: brightness compensation (`adjustColorForBrightness`)
-- ────────────────────────────────────────────────────────────────────

/-- `BRIGHTNESS_SCALING_FACTOR` (player.ts): 0.7. -/
def BRIGHTNESS_SCALING_FACTOR : ℚ := 7 / 10

/-- `DARK_BOOST` (player.ts): 0.1. -/
def DARK_BOOST : ℚ := 1 / 10

/-- JavaScript `Math.round` on the (nonnegative) values arising here:
round half away from zero, i.e. `⌊x + 1/2⌋`. -/
def jsRound (x : ℚ) : ℤ := ⌊x + 1 / 2⌋

/--
The `adjustedScale` computed by `adjustColorForBrightness` (player.ts,
lines 173–177) for parsed channels `r g b` and the given brightness:
`scale = 1 − 0.7·(1 − brightness/100)` plus the dark boost
`(1 − avg/100)·0.1` applied when the average channel is below 100.
-/
def adjustedScale (r g b : ℕ) (brightness : ℕ) : ℚ :=
  let scale : ℚ := 1 - BRIGHTNESS_SCALING_FACTOR * (1 - (brightness : ℚ) / 100)
  let avgBrightness : ℚ := ((r : ℚ) + (g : ℚ) + (b : ℚ)) / 3
  let darkBoost : ℚ := if avgBrightness < 100 then (1 - avgBrightness / 100) * DARK_BOOST else 0
  scale + darkBoost

/-- One output channel (player.ts, lines 179–181):
`Math.min(255, Math.round(channel * adjustedScale))`. -/
def adjustChannel (c : ℕ) (s : ℚ) : ℤ :=
  min 255 (jsRound ((c : ℚ) * s))

/--
The channel-level view of `adjustColorForBrightness` (player.ts,
lines 165–184) on an already-parsed color `(r, g, b)`: the early return
at brightness 100 (or a zero scaling factor) leaves the channels
unchanged; otherwise each channel is scaled by the adjusted scale,
rounded and capped at 255.
-/
def adjustPixel (r g b : ℕ) (brightness : ℕ) : ℤ × ℤ × ℤ :=
  if brightness = 100 ∨ BRIGHTNESS_SCALING_FACTOR = 0 then
    ((r : ℤ), (g : ℤ), (b : ℤ))
  else
    (adjustChannel r (adjustedScale r g b brightness),
     adjustChannel g (adjustedScale r g b brightness),
     adjustChannel b (adjustedScale r g b brightness))

/--
Value of one hexadecimal digit, as `parseInt(…, 16)` reads it
(case-insensitive).  A non-hex character is read as 0 here; the source
would produce `NaN` for a malformed color, a case none of the verified
claims exercises (the only claim about arbitrary strings, C8, is decided
by the early return before any parsing).
-/
def hexDigitVal (ch : Char) : ℕ :=
  if '0' ≤ ch ∧ ch ≤ '9' then ch.toNat - Char.toNat '0'
  else if 'a' ≤ ch ∧ ch ≤ 'f' then ch.toNat - Char.toNat 'a' + 10
  else if 'A' ≤ ch ∧ ch ≤ 'F' then ch.toNat - Char.toNat 'A' + 10
  else 0

/-- `hexColor.replace("#", "")`: a JavaScript string-pattern `replace`
removes the first occurrence of `"#"`. -/
def removeFirstHash : List Char → List Char
  | [] => []
  | c :: cs => if c = '#' then cs else c :: removeFirstHash cs

/-- `value.toString(16).padStart(2, "0")` for a channel value in
`[0, 255]`: lowercase hex digits, left-padded to two characters. -/
def toHexByte (n : ℤ) : List Char :=
  let ds := Nat.toDigits 16 n.toNat
  if ds.length < 2 then '0' :: ds else ds

/--
`adjustColorForBrightness` (player.ts, lines 165–184).  At brightness
100 (or a zero scaling factor) the input string is returned unchanged
before any parsing.  Otherwise the `#` is stripped, the three channel
bytes are parsed with `parseInt(…, 16)` from two hex digits each
(`substring(0,2)`, `substring(2,4)`, `substring(4,6)`), each channel is
scaled/rounded/capped, and the result is re-rendered as
`` `#${…}${…}${…}` ``.
-/
def adjustColorForBrightness (hexColor : String) (brightness : ℕ) : String :=
  if brightness = 100 ∨ BRIGHTNESS_SCALING_FACTOR = 0 then hexColor
  else
    let hex := removeFirstHash hexColor.toList
    let r := 16 * hexDigitVal (hex.getD 0 '0') + hexDigitVal (hex.getD 1 '0')
    let g := 16 * hexDigitVal (hex.getD 2 '0') + hexDigitVal (hex.getD 3 '0')
    let b := 16 * hexDigitVal (hex.getD 4 '0') + hexDigitVal (hex.getD 5 '0')
    let s := adjustedScale r g b brightness
    String.mk ('#' :: (toHexByte (adjustChannel r s)
      ++ toHexByte (adjustChannel g s)
      ++ toHexByte (adjustChannel b s)))

-- ────────────────────────────────────────────────────────────────────
-- player.ts: `Player.play`
-- ────────────────────────────────────────────────────────────────────

/--
Outcome of a `play()` call: the return value (`some true` on a wrap to
frame 0, `none` for JavaScript `undefined`), the final `this.frame` and
`this.cycles`, and the list of frame indices the loop body processed
(each processed index corresponds to one seek + canvas clear + draw
pass), in order.
-/
structure PlayOutcome where
  ret : Option Bool
  frame : ℕ
  cycles : ℕ
  visited : List ℕ
deriving DecidableEq

/--
The `while (!hasActiveAnimation)` loop of `Player.play` (player.ts,
lines 482–505).  `isActive frame` abstracts whether, after seeking the
GSAP master timeline to the time of `frame`, some animation reports
`animating == true` (line 488).  Each pass seeks, clears the canvas,
draws the active animations, increments `skippedFrames` (with the
`skippedFrames >= this.frames` cap forcing `hasActiveAnimation`), then
increments `this.frame`; reaching `this.frames` wraps to frame 0,
increments `this.cycles` and returns `true`, and otherwise the loop
exits (returning `undefined`) once `hasActiveAnimation` is set.
Totality of this definition is the termination part of claim C9.
-/
def playLoop (isActive : ℕ → Bool) (frames frame cycles skipped : ℕ) : PlayOutcome :=
  if frames ≤ frame + 1 then
    { ret := some true, frame := 0, cycles := cycles + 1, visited := [frame] }
  else if isActive frame || decide (frames ≤ skipped + 1) then
    { ret := none, frame := frame + 1, cycles := cycles, visited := [frame] }
  else
    let rest := playLoop isActive frames (frame + 1) cycles (skipped + 1)
    { rest with visited := frame :: rest.visited }
termination_by frames - frame
decreasing_by omega

/--
The `Player` fields `play()` reads and writes (player.ts, lines
367–391): whether a movie is loaded (`this.movie !== null`), the frame
count `this.frames`, the playhead `this.frame` and the cycle counter
`this.cycles`.
-/
structure PlayerState where
  movie : Bool
  frames : ℕ
  frame : ℕ
  cycles : ℕ
deriving DecidableEq

/--
`Player.play` (player.ts, lines 476–506): `if (!this.movie) return;`
guards the whole body, so with no movie loaded nothing is drawn and no
state changes; otherwise the skip/draw loop runs with
`skippedFrames = 0`.  Returns the call's return value, the updated
player state and the list of frame indices processed.
-/
def play (isActive : ℕ → Bool) (s : PlayerState) : Option Bool × PlayerState × List ℕ :=
  if !s.movie then (none, s, [])
  else
    let o := playLoop isActive s.frames s.frame s.cycles 0
    (o.ret, { s with frame := o.frame, cycles := o.cycles }, o.visited)

-- ────────────────────────────────────────────────────────────────────
-- Specification predicates
-- ────────────────────────────────────────────────────────────────────

/--
Layout asserted by claim C3 for the 98-byte commit payload at hardware
brightness `b`: the four brightness bytes, the gamma flag, and zero
everywhere else (byte 23 included).
-/
def CommitPacketLayout (b : ℕ) : Prop :=
  (commitPayload b).length = FRAME_DATA_LENGTH ∧
  (commitPayload b).getD FRAME_BRIGHTNESS_OFFSET 0 = b ∧
  (commitPayload b).getD FRAME_GAMMA_FLAG_OFFSET 0 = 5 ∧
  (commitPayload b).getD FRAME_BRIGHTNESS_R_OFFSET 0 = b ∧
  (commitPayload b).getD FRAME_BRIGHTNESS_G_OFFSET 0 = b ∧
  (commitPayload b).getD FRAME_BRIGHTNESS_B_OFFSET 0 = b ∧
  ∀ k, k < FRAME_DATA_LENGTH → k ≠ FRAME_BRIGHTNESS_OFFSET →
    k ≠ FRAME_GAMMA_FLAG_OFFSET → k ≠ FRAME_BRIGHTNESS_R_OFFSET →
    k ≠ FRAME_BRIGHTNESS_G_OFFSET → k ≠ FRAME_BRIGHTNESS_B_OFFSET →
    (commitPayload b).getD k 0 = 0

/--
Behaviour asserted by the amended claim C4 at the Transport: an in-range
brightness string is applied exactly, an out-of-range one (and a missing
key) leaves the previous value in place, the resulting hardware
brightness stays in `[0,255]`, and the Orchestrator hands the message
value to the Renderer unclamped.
-/
def BrightnessConsumptionBehavior (current v m : ℤ) : Prop :=
  (0 ≤ v ∧ v ≤ 255 → processBrightnessReply current (some v) = v) ∧
  (¬(0 ≤ v ∧ v ≤ 255) → processBrightnessReply current (some v) = current) ∧
  processBrightnessReply current none = current ∧
  0 ≤ processBrightnessReply current (some v) ∧
  processBrightnessReply current (some v) ≤ 255 ∧
  brightnessMessageHandler m = m

/--
Bound asserted by claim C5 after `k` Orchestrator iterations with a
never-popping Transport: the resting queue length stays below `fps`, the
transient length just after a push never exceeds `fps`, and an iteration
whose push reaches exactly `fps` empties the queue.
-/
def QueueBoundedAt (fps k : ℕ) : Prop :=
  queueLen fps k < fps ∧
  queueLen fps k + 1 ≤ fps ∧
  (queueLen fps k + 1 = fps → directorStep fps (queueLen fps k) = 0)

/--
Monotonicity asserted by claim C7: going from brightness `b1` to `b2`,
none of the three output channels of the brightness compensation
decreases.
-/
def ChannelsMonotone (r g b b1 b2 : ℕ) : Prop :=
  (adjustPixel r g b b1).1 ≤ (adjustPixel r g b b2).1 ∧
  (adjustPixel r g b b1).2.1 ≤ (adjustPixel r g b b2).2.1 ∧
  (adjustPixel r g b b1).2.2 ≤ (adjustPixel r g b b2).2.2

/--
Emission shape asserted by claim C1 for one dequeued valid frame: 65
packets, the first 64 being row packets carrying row indices 0–63 in
ascending order, and the 65th (after all rows) the sole commit packet.
-/
def SenderEmitsRowsThenCommit (b : ℕ) (frame : List ℕ) : Prop :=
  (senderIteration b frame).length = SIGN_HEIGHT + 1 ∧
  (∀ k, k < SIGN_HEIGHT →
    ((senderIteration b frame).getD k (FpgaPacket.commit [])).isRow = true ∧
    ((senderIteration b frame).getD k (FpgaPacket.commit [])).rowIndex = k) ∧
  ((senderIteration b frame).getD SIGN_HEIGHT (FpgaPacket.row [])).isCommit = true

/--
Pixel conversion asserted by claim C2: within the emitted packet
sequence for a valid frame, pixel `i` lands in the row packet for row
`i / SIGN_WIDTH`, and its three bytes there are
`frame[4i+2], frame[4i+1], frame[4i]` (BGRA reordered to RGB, alpha
skipped).
-/
def RowBytesAreRGBOfBGRA (b : ℕ) (frame : List ℕ) (i : ℕ) : Prop :=
  ∃ pl,
    (senderIteration b frame).getD (i / SIGN_WIDTH) (FpgaPacket.commit [])
      = FpgaPacket.row pl ∧
    pl.getD (ROW_HEADER_SIZE + 3 * (i % SIGN_WIDTH)) 0 = frame.getD (4 * i + 2) 0 ∧
    pl.getD (ROW_HEADER_SIZE + 3 * (i % SIGN_WIDTH) + 1) 0 = frame.getD (4 * i + 1) 0 ∧
    pl.getD (ROW_HEADER_SIZE + 3 * (i % SIGN_WIDTH) + 2) 0 = frame.getD (4 * i) 0

-- ────────────────────────────────────────────────────────────────────
-- C3 — commit packet layout
-- ────────────────────────────────────────────────────────────────────

/--
C3: for the current hardware brightness value `b ∈ [0,255]`, every
commit packet's 98-byte payload has bytes at offsets 21, 24, 25, 26
equal to `b`, byte 22 equal to 5, and every other byte (including byte
23) equal to 0.
-/
theorem commit_packet_layout (b : ℕ) (hb : b ≤ 255) : CommitPacketLayout b := by
  have hmod : b % 256 = b := Nat.mod_eq_of_lt (by omega)
  refine ⟨by simp [commitPayload], ?_, ?_, ?_, ?_, ?_, ?_⟩
  · show (commitPayload b).getD 21 0 = b
    unfold commitPayload FRAME_DATA_LENGTH FRAME_BRIGHTNESS_OFFSET FRAME_GAMMA_FLAG_OFFSET
      FRAME_BRIGHTNESS_R_OFFSET FRAME_BRIGHTNESS_G_OFFSET FRAME_BRIGHTNESS_B_OFFSET
    rw [List.getD_eq_getElem _ _ (by simp)]
    simp [List.getElem_set, List.getElem_replicate, hmod]
  · show (commitPayload b).getD 22 0 = 5
    unfold commitPayload FRAME_DATA_LENGTH FRAME_BRIGHTNESS_OFFSET FRAME_GAMMA_FLAG_OFFSET
      FRAME_BRIGHTNESS_R_OFFSET FRAME_BRIGHTNESS_G_OFFSET FRAME_BRIGHTNESS_B_OFFSET
    rw [List.getD_eq_getElem _ _ (by simp)]
    simp [List.getElem_set, List.getElem_replicate]
  · show (commitPayload b).getD 24 0 = b
    unfold commitPayload FRAME_DATA_LENGTH FRAME_BRIGHTNESS_OFFSET FRAME_GAMMA_FLAG_OFFSET
      FRAME_BRIGHTNESS_R_OFFSET FRAME_BRIGHTNESS_G_OFFSET FRAME_BRIGHTNESS_B_OFFSET
    rw [List.getD_eq_getElem _ _ (by simp)]
    simp [List.getElem_set, List.getElem_replicate, hmod]
  · show (commitPayload b).getD 25 0 = b
    unfold commitPayload FRAME_DATA_LENGTH FRAME_BRIGHTNESS_OFFSET FRAME_GAMMA_FLAG_OFFSET
      FRAME_BRIGHTNESS_R_OFFSET FRAME_BRIGHTNESS_G_OFFSET FRAME_BRIGHTNESS_B_OFFSET
    rw [List.getD_eq_getElem _ _ (by simp)]
    simp [List.getElem_set, List.getElem_replicate, hmod]
  · show (commitPayload b).getD 26 0 = b
    unfold commitPayload FRAME_DATA_LENGTH FRAME_BRIGHTNESS_OFFSET FRAME_GAMMA_FLAG_OFFSET
      FRAME_BRIGHTNESS_R_OFFSET FRAME_BRIGHTNESS_G_OFFSET FRAME_BRIGHTNESS_B_OFFSET
    rw [List.getD_eq_getElem _ _ (by simp)]
    simp [List.getElem_set, List.getElem_replicate, hmod]
  · intro k hk h21 h22 h24 h25 h26
    simp only [FRAME_DATA_LENGTH, FRAME_BRIGHTNESS_OFFSET, FRAME_GAMMA_FLAG_OFFSET,
      FRAME_BRIGHTNESS_R_OFFSET, FRAME_BRIGHTNESS_G_OFFSET, FRAME_BRIGHTNESS_B_OFFSET]
      at hk h21 h22 h24 h25 h26
    unfold commitPayload FRAME_DATA_LENGTH FRAME_BRIGHTNESS_OFFSET FRAME_GAMMA_FLAG_OFFSET
      FRAME_BRIGHTNESS_R_OFFSET FRAME_BRIGHTNESS_G_OFFSET FRAME_BRIGHTNESS_B_OFFSET
    rw [List.getD_eq_getElem _ _ (by simp; omega)]
    simp only [List.getElem_set]
    split_ifs <;> first | omega | (rw [List.getElem_replicate])

/-- Witness for C3 at brightness 42. -/
theorem commit_packet_layout_witness : 42 ≤ 255 ∧ CommitPacketLayout 42 :=
  ⟨by decide, commit_packet_layout 42 (by decide)⟩

-- ────────────────────────────────────────────────────────────────────
-- C4 — brightness clamping on consumption (refuted and amended)
-- ────────────────────────────────────────────────────────────────────

/--
C4 counterexample: with previous hardware brightness 7, the brightness
string `"300"` is ignored by the Transport (the guard in sender.c lines
121–123 fails), so the brightness used is 7, not `clamp(300) = 255`; and
the Orchestrator's subscriber assigns `Number("500") = 500` to the
Renderer, which is not in `[1,100]`.
-/
theorem brightness_not_clamped_on_consumption :
    processBrightnessReply 7 (some 300) = 7 ∧
    processBrightnessReply 7 (some 300) ≠ max 0 (min 300 255) ∧
    brightnessMessageHandler 500 = 500 ∧
    ¬(1 ≤ brightnessMessageHandler 500 ∧ brightnessMessageHandler 500 ≤ 100) := by
  refine ⟨by decide, by decide, rfl, by decide⟩

/--
C4 (amended): the Transport applies a brightness string only when its
integer value already lies in `[0,255]` and keeps the previous value
otherwise (so the hardware brightness stays in `[0,255]` but does not
equal the clamped string value), and the Orchestrator assigns the
message's numeric value to the Renderer without clamping.
-/
theorem brightness_consumption_amended (current v m : ℤ)
    (hc0 : 0 ≤ current) (hc255 : current ≤ 255) :
    BrightnessConsumptionBehavior current v m := by
  have hred : processBrightnessReply current (some v)
      = if 0 ≤ v ∧ v ≤ 255 then set_brightness v else current := rfl
  unfold BrightnessConsumptionBehavior brightnessMessageHandler
  refine ⟨fun h => ?_, fun h => ?_, rfl, ?_, ?_, rfl⟩ <;>
    rw [hred] <;> unfold set_brightness <;> split_ifs <;> omega

/-- Witness for the amended C4 at `current = 7`, string value 300,
channel message 500. -/
theorem brightness_consumption_amended_witness :
    (0 : ℤ) ≤ 7 ∧ (7 : ℤ) ≤ 255 ∧ BrightnessConsumptionBehavior 7 300 500 :=
  ⟨by decide, by decide, brightness_consumption_amended 7 300 500 (by decide) (by decide)⟩

-- ────────────────────────────────────────────────────────────────────
-- C5 — Orchestrator queue backpressure bound
-- ────────────────────────────────────────────────────────────────────

/--
C5: if the Transport never pops, the Orchestrator keeps the
`player:frames` queue length bounded by `fps`: starting from the empty
queue, after any number of iterations the resting length is below
`fps`, the length just after a push never exceeds `fps`, and an
iteration whose push reaches exactly `fps` flushes the queue to empty.
-/
theorem director_queue_bounded (fps : ℕ) (hfps : 0 < fps) (k : ℕ) :
    QueueBoundedAt fps k := by
  induction k with
  | zero =>
    refine ⟨hfps, hfps, fun h => ?_⟩
    simp only [queueLen] at h ⊢
    simp [directorStep, recheckLen, h]
  | succ n ih =>
    obtain ⟨ih1, ih2, _⟩ := ih
    have hstep : ∀ q, q + 1 ≤ fps → directorStep fps q < fps := by
      intro q hq
      unfold directorStep recheckLen
      split_ifs <;> omega
    refine ⟨?_, ?_, fun h => ?_⟩
    · exact hstep _ ih2
    · exact hstep _ ih2
    · have := hstep _ ih2
      unfold directorStep recheckLen
      simp only [queueLen] at h ⊢
      split_ifs
      all_goals omega

/-- Witness for C5 at `fps = 240` after 5 iterations. -/
theorem director_queue_bounded_witness : 0 < 240 ∧ QueueBoundedAt 240 5 :=
  ⟨by decide, director_queue_bounded 240 (by decide) 5⟩

-- ────────────────────────────────────────────────────────────────────
-- C6 — Ambient controller: rate limit and range
-- ────────────────────────────────────────────────────────────────────

/-- One rate-limited update keeps the published value in `[1,100]` and
within 5 of the previous `currentBrightness`. -/
theorem updateBrightnessStep_bounds (c t b : ℤ) (hc1 : 1 ≤ c) (hc2 : c ≤ 100)
    (h : updateBrightnessStep c t = some b) :
    1 ≤ b ∧ b ≤ 100 ∧ c - 5 ≤ b ∧ b ≤ c + 5 := by
  unfold updateBrightnessStep BRIGHTNESS_INC_MAX BRIGHTNESS_MAX BRIGHTNESS_MIN at h
  by_cases hd : t - c = 0
  · simp [hd] at h
  · simp only [hd, if_neg, if_false, Option.some.injEq] at h
    rcases lt_trichotomy (t - c) 0 with hlt | heq | hgt
    · rw [Int.sign_eq_neg_one_of_neg hlt, abs_of_neg hlt] at h
      omega
    · exact absurd heq hd
    · rw [Int.sign_eq_one_of_pos hgt, abs_of_pos hgt] at h
      omega

/-- The published sequence starting from any in-range
`currentBrightness` moves in steps of at most 5 and stays in `[1,100]`. -/
theorem publishedSeq_chain (ts : List ℤ) (c : ℤ) (hc1 : 1 ≤ c) (hc2 : c ≤ 100) :
    List.Chain (fun a b => a - 5 ≤ b ∧ b ≤ a + 5) c (publishedSeq c ts) ∧
    List.Forall (fun b => 1 ≤ b ∧ b ≤ 100) (publishedSeq c ts) := by
  induction ts generalizing c with
  | nil => exact ⟨List.Chain.nil, trivial⟩
  | cons t ts ih =>
    unfold publishedSeq
    cases h : updateBrightnessStep c t with
    | none => exact ih c hc1 hc2
    | some b =>
      obtain ⟨h1, h2, h3, h4⟩ := updateBrightnessStep_bounds c t b hc1 hc2 h
      obtain ⟨hchain, hall⟩ := ih b h1 h2
      exact ⟨List.Chain.cons ⟨h3, h4⟩ hchain,
        List.forall_cons _ _ _ |>.mpr ⟨⟨h1, h2⟩, hall⟩⟩

/--
C6: for every lux input sequence (abstracted as the sequence of
`luxToBrightness` targets it induces), the Ambient controller's
published brightness sequence, starting from `currentBrightness = 1`,
changes by at most 5 between consecutive published values (including
from the initial value 1 to the first published value) and every
published value lies within `[1,100]`.
-/
theorem ambient_brightness_rate_limited (targets : List ℤ) :
    List.Chain (fun a b => a - 5 ≤ b ∧ b ≤ a + 5) 1 (publishedSeq 1 targets) ∧
    List.Forall (fun b => 1 ≤ b ∧ b ≤ 100) (publishedSeq 1 targets) :=
  publishedSeq_chain targets 1 (by norm_num) (by norm_num)

-- ────────────────────────────────────────────────────────────────────
-- C7 / C8 — brightness compensation
-- ────────────────────────────────────────────────────────────────────

/-- The scaling factor 0.7 is not zero, so the second disjunct of the
early return never fires. -/
theorem scaling_factor_ne_zero : BRIGHTNESS_SCALING_FACTOR ≠ 0 := by
  norm_num [BRIGHTNESS_SCALING_FACTOR]

/-- For colors with average channel at least 100 the dark boost is zero
and the adjusted scale is the affine function `3/10 + 7/1000·brightness`. -/
theorem adjustedScale_of_bright (r g b br : ℕ) (h : 300 ≤ r + g + b) :
    adjustedScale r g b br = 3 / 10 + 7 / 1000 * (br : ℚ) := by
  have h3 : (300 : ℚ) ≤ (r : ℚ) + (g : ℚ) + (b : ℚ) := by exact_mod_cast h
  simp only [adjustedScale, BRIGHTNESS_SCALING_FACTOR, DARK_BOOST]
  rw [if_neg (by rw [not_lt]; linarith)]
  ring

/-- `Math.round` is monotone. -/
theorem jsRound_mono {x y : ℚ} (h : x ≤ y) : jsRound x ≤ jsRound y :=
  Int.floor_le_floor (by linarith)

/-- `Math.round` fixes integers. -/
theorem jsRound_natCast (c : ℕ) : jsRound (c : ℚ) = (c : ℤ) := by
  unfold jsRound
  rw [Int.floor_eq_iff]
  constructor <;> push_cast <;> linarith

/-- A channel output is monotone in the adjusted scale. -/
theorem adjustChannel_mono (c : ℕ) {s1 s2 : ℚ} (h : s1 ≤ s2) :
    adjustChannel c s1 ≤ adjustChannel c s2 := by
  unfold adjustChannel
  exact min_le_min le_rfl
    (jsRound_mono (mul_le_mul_of_nonneg_left h (by positivity)))

/-- With a scale at most 1, a channel output never exceeds the input
channel. -/
theorem adjustChannel_le_self (c : ℕ) {s : ℚ} (hs : s ≤ 1) :
    adjustChannel c s ≤ (c : ℤ) := by
  unfold adjustChannel
  have h0 : (0 : ℚ) ≤ (c : ℚ) := by positivity
  have h1 : (c : ℚ) * s ≤ (c : ℚ) := by nlinarith
  have h2 : jsRound ((c : ℚ) * s) ≤ (c : ℤ) := by
    have := jsRound_mono h1
    rwa [jsRound_natCast] at this
  exact le_trans (min_le_right _ _) h2

/--
C7: for every fixed input color that does not trigger the dark-boost
discontinuity (average channel at least 100, so `darkBoost = 0`), each
output channel of the brightness compensation is monotone non-decreasing
in brightness across the whole range `[1,100]` — including the jump into
the `brightness == 100` early-return branch.
-/
theorem adjust_color_monotone_in_brightness (r g b b1 b2 : ℕ)
    (_hr : r ≤ 255) (_hg : g ≤ 255) (_hb : b ≤ 255) (havg : 300 ≤ r + g + b)
    (_hb1 : 1 ≤ b1) (h12 : b1 ≤ b2) (hb2 : b2 ≤ 100) :
    ChannelsMonotone r g b b1 b2 := by
  have hsf : ¬BRIGHTNESS_SCALING_FACTOR = 0 := scaling_factor_ne_zero
  by_cases h2 : b2 = 100
  · by_cases h1 : b1 = 100
    · subst h1 h2
      exact ⟨le_rfl, le_rfl, le_rfl⟩
    · -- b1 < 100: each adjusted channel is at most the raw channel
      have hs1 : adjustedScale r g b b1 ≤ 1 := by
        rw [adjustedScale_of_bright r g b b1 havg]
        have : (b1 : ℚ) ≤ 100 := by exact_mod_cast (by omega : b1 ≤ 100)
        linarith
      subst h2
      unfold ChannelsMonotone adjustPixel
      rw [if_neg (by simp [h1, hsf]), if_pos (Or.inl rfl)]
      exact ⟨adjustChannel_le_self r hs1, adjustChannel_le_self g hs1,
        adjustChannel_le_self b hs1⟩
  · -- b1 ≤ b2 < 100: the adjusted scale is monotone in brightness
    have h1 : ¬b1 = 100 := by omega
    have hmono : adjustedScale r g b b1 ≤ adjustedScale r g b b2 := by
      rw [adjustedScale_of_bright r g b b1 havg, adjustedScale_of_bright r g b b2 havg]
      have : (b1 : ℚ) ≤ (b2 : ℚ) := by exact_mod_cast h12
      linarith
    unfold ChannelsMonotone adjustPixel
    rw [if_neg (by simp [h1, hsf]), if_neg (by simp [h2, hsf])]
    exact ⟨adjustChannel_mono r hmono, adjustChannel_mono g hmono,
      adjustChannel_mono b hmono⟩

/-- Witness for C7: the color `#646464` (all channels 100, average 100)
between brightness 50 and 60. -/
theorem adjust_color_monotone_in_brightness_witness :
    (100 ≤ 255 ∧ 300 ≤ 100 + 100 + 100 ∧ 1 ≤ 50 ∧ 50 ≤ 60 ∧ 60 ≤ 100) ∧
    ChannelsMonotone 100 100 100 50 60 :=
  ⟨by decide, adjust_color_monotone_in_brightness 100 100 100 50 60
    (by decide) (by decide) (by decide) (by decide) (by decide) (by decide) (by decide)⟩

/--
C8: for every input hex color string, the brightness compensation at
brightness 100 returns the input color exactly, unchanged — the early
return fires before any parsing.
-/
theorem adjust_color_identity_at_full_brightness (hexColor : String) :
    adjustColorForBrightness hexColor 100 = hexColor := by
  unfold adjustColorForBrightness
  rw [if_pos (Or.inl rfl)]

-- ────────────────────────────────────────────────────────────────────
-- C9 / C10 — Player.play
-- ────────────────────────────────────────────────────────────────────

/-- The skip/draw loop always processes at least one frame index and at
most `max (frames − frame) 1` of them. -/
theorem playLoop_visited_length (ia : ℕ → Bool) :
    ∀ n F f c s : ℕ, F - f ≤ n →
      1 ≤ (playLoop ia F f c s).visited.length ∧
      (playLoop ia F f c s).visited.length ≤ max (F - f) 1 := by
  intro n
  induction n with
  | zero =>
    intro F f c s h
    rw [playLoop]
    have hf : F ≤ f + 1 := by omega
    simp [hf]
  | succ m ih =>
    intro F f c s h
    rw [playLoop]
    split
    · simp
    · split
      · simp
      · next hwrap _ =>
        have hrec := ih F (f + 1) c (s + 1) (by omega)
        simp only [List.length_cons]
        omega

/--
C9: every call to `play()` on a loaded movie terminates (`playLoop` is a
total function), and the skip-and-retry loop taken when no animation is
active re-runs at most `frames` times beyond the first pass — the loop
body executes at most `max (frames − frame) 1` times, so the number of
retries is at most `frames`, including for an empty movie
(`frames = 0`), where the body runs exactly once and there are no
retries.
-/
theorem play_skip_retry_bounded (ia : ℕ → Bool) (F f c : ℕ) :
    1 ≤ (play ia ⟨true, F, f, c⟩).2.2.length ∧
    (play ia ⟨true, F, f, c⟩).2.2.length ≤ max (F - f) 1 ∧
    (play ia ⟨true, F, f, c⟩).2.2.length - 1 ≤ F := by
  have h := playLoop_visited_length ia (F - f) F f c 0 le_rfl
  have hplay : (play ia ⟨true, F, f, c⟩).2.2 = (playLoop ia F f c 0).visited := rfl
  rw [hplay]
  omega

/--
C10: calling `play()` before any movie has been loaded returns
`undefined` immediately: the state (frame, cycles) is unchanged and no
frame index is processed — nothing is seeked, cleared or drawn.
-/
theorem play_without_movie_is_noop (ia : ℕ → Bool) (s : PlayerState)
    (h : s.movie = false) :
    play ia s = (none, s, []) := by
  unfold play
  rw [h]
  rfl

/-- Witness for C10 on a concrete movie-less player state. -/
theorem play_without_movie_is_noop_witness :
    (PlayerState.mk false 5 3 1).movie = false ∧
    play (fun _ => true) (PlayerState.mk false 5 3 1)
      = (none, PlayerState.mk false 5 3 1, []) :=
  ⟨rfl, play_without_movie_is_noop (fun _ => true) (PlayerState.mk false 5 3 1) rfl⟩

-- ────────────────────────────────────────────────────────────────────
-- C1 / C2 — row packets then commit; BGRA→RGB bytes
-- ────────────────────────────────────────────────────────────────────

/-- Length of a `flatMap` over `range` with fixed-size blocks. -/
theorem flatMap_range_length (f : ℕ → List ℕ) (k : ℕ)
    (hf : ∀ c, (f c).length = k) (n : ℕ) :
    ((List.range n).flatMap f).length = k * n := by
  induction n with
  | zero => simp
  | succ m ih =>
    rw [List.range_succ, List.flatMap_append]
    simp [ih, hf, Nat.mul_succ]

/-- Indexing into a `flatMap` over `range` with fixed-size blocks picks
out byte `r` of block `c`. -/
theorem flatMap_range_getD (f : ℕ → List ℕ) (k : ℕ)
    (hf : ∀ c, (f c).length = k) (n c r : ℕ) (hr : r < k) (hc : c < n) :
    ((List.range n).flatMap f).getD (k * c + r) 0 = (f c).getD r 0 := by
  induction n generalizing c with
  | zero => omega
  | succ m ih =>
    rw [List.range_succ, List.flatMap_append]
    rcases Nat.lt_or_ge c m with h | h
    · rw [List.getD_append _ _ _ _ ?_]
      · exact ih c h
      · rw [flatMap_range_length f k hf m]
        have h1 : c + 1 ≤ m := h
        calc k * c + r < k * c + k := by omega
          _ = k * (c + 1) := by ring
          _ ≤ k * m := Nat.mul_le_mul_left k h1
    · have hcm : c = m := by omega
      subst hcm
      have hlen : ((List.range c).flatMap f).length = k * c :=
        flatMap_range_length f k hf c
      rw [List.getD_append_right _ _ _ _ (by omega), hlen]
      simp only [List.flatMap_cons, List.flatMap_nil, List.append_nil]
      congr 1
      omega

/-- Each pixel triple has three bytes. -/
theorem pixelTriple_length (frame : List ℕ) (i : ℕ) :
    (pixelTriple frame i).length = 3 := rfl

/-- A row's pixel region holds `3 · SIGN_WIDTH` bytes. -/
theorem rowPixelBytes_length (frame : List ℕ) (row : ℕ) :
    (rowPixelBytes frame row).length = 3 * SIGN_WIDTH :=
  flatMap_range_length (fun col => pixelTriple frame (row * SIGN_WIDTH + col))
    3 (fun _ => rfl) SIGN_WIDTH

/-- Byte `r` of column `col` in a row packet payload is byte `r` of the
pixel triple of pixel `row·SIGN_WIDTH + col`. -/
theorem rowPacketPayload_getD_pixel (frame : List ℕ) (row col r : ℕ)
    (hcol : col < SIGN_WIDTH) (hr : r < 3) :
    (rowPacketPayload frame row).getD (ROW_HEADER_SIZE + (3 * col + r)) 0
      = (pixelTriple frame (row * SIGN_WIDTH + col)).getD r 0 := by
  unfold rowPacketPayload
  have hhdr : (rowHeader row).length = ROW_HEADER_SIZE := rfl
  rw [List.getD_append_right _ _ _ _ (by omega), hhdr]
  have hidx : ROW_HEADER_SIZE + (3 * col + r) - ROW_HEADER_SIZE = 3 * col + r := by
    omega
  rw [hidx]
  exact flatMap_range_getD (fun col => pixelTriple frame (row * SIGN_WIDTH + col))
    3 (fun _ => rfl) SIGN_WIDTH col r hr hcol

/-- On a valid frame the sender iteration is the 64 row packets followed
by the commit packet. -/
theorem senderIteration_eq (b : ℕ) (frame : List ℕ)
    (h : frame.length = SIGN_WIDTH * SIGN_HEIGHT * BYTES_PER_PIXEL) :
    senderIteration b frame
      = rowPackets frame ++ [FpgaPacket.commit (commitPayload b)] := by
  simp [senderIteration, process_and_send_frame, h]

/-- There are `SIGN_HEIGHT` row packets. -/
theorem rowPackets_length (frame : List ℕ) :
    (rowPackets frame).length = SIGN_HEIGHT := by
  simp [rowPackets]

/-- The `k`-th row packet carries the payload for row `k`. -/
theorem rowPackets_getD (frame : List ℕ) (k : ℕ) (hk : k < SIGN_HEIGHT)
    (d : FpgaPacket) :
    (rowPackets frame).getD k d = FpgaPacket.row (rowPacketPayload frame k) := by
  unfold rowPackets
  rw [List.getD_eq_getElem _ _ (by simpa using hk)]
  simp

/-- Within the emission for a valid frame, packet `k < SIGN_HEIGHT` is
the row packet for row `k`. -/
theorem senderIteration_getD_row (b : ℕ) (frame : List ℕ)
    (h : frame.length = SIGN_WIDTH * SIGN_HEIGHT * BYTES_PER_PIXEL)
    (k : ℕ) (hk : k < SIGN_HEIGHT) (d : FpgaPacket) :
    (senderIteration b frame).getD k d
      = FpgaPacket.row (rowPacketPayload frame k) := by
  rw [senderIteration_eq b frame h,
    List.getD_append _ _ _ _ (by rw [rowPackets_length]; exact hk)]
  exact rowPackets_getD frame k hk d

/--
C1: for every frame the Transport dequeues whose byte length equals
`320·64·4`, it emits exactly 64 row packets, one per row index 0–63 in
ascending order, followed by exactly one commit packet; the commit is
sent only after all 64 rows of that frame.
-/
theorem sender_emits_rows_then_commit (b : ℕ) (frame : List ℕ)
    (h : frame.length = SIGN_WIDTH * SIGN_HEIGHT * BYTES_PER_PIXEL) :
    SenderEmitsRowsThenCommit b frame := by
  refine ⟨?_, fun k hk => ⟨?_, ?_⟩, ?_⟩
  · rw [senderIteration_eq b frame h]
    simp [rowPackets_length]
  · rw [senderIteration_getD_row b frame h k hk]
    rfl
  · rw [senderIteration_getD_row b frame h k hk]
    show (rowPacketPayload frame k).headD 0 = k
    show (rowHeader k ++ rowPixelBytes frame k).headD 0 = k
    have hk64 : k < 64 := hk
    simp [rowHeader, Nat.mod_eq_of_lt (show k < 256 by omega)]
  · rw [senderIteration_eq b frame h,
      List.getD_append_right _ _ _ _ (by rw [rowPackets_length]),
      rowPackets_length]
    rfl

/-- Witness for C1 on the all-zero valid frame at brightness 0. -/
theorem sender_emits_rows_then_commit_witness :
    (List.replicate (SIGN_WIDTH * SIGN_HEIGHT * BYTES_PER_PIXEL) 0).length
      = SIGN_WIDTH * SIGN_HEIGHT * BYTES_PER_PIXEL ∧
    SenderEmitsRowsThenCommit 0
      (List.replicate (SIGN_WIDTH * SIGN_HEIGHT * BYTES_PER_PIXEL) 0) :=
  ⟨List.length_replicate _ _,
    sender_emits_rows_then_commit 0 _ (List.length_replicate _ _)⟩

/--
C2: for every valid dequeued frame and every pixel index `i`, the three
bytes the Transport writes into the row packet for pixel `i` are
`(frame[4i+2], frame[4i+1], frame[4i])`: BGRA reordered to RGB, with
the alpha byte `frame[4i+3]` skipped and no alpha premultiplication.
-/
theorem row_bytes_are_rgb_of_bgra (b : ℕ) (frame : List ℕ)
    (h : frame.length = SIGN_WIDTH * SIGN_HEIGHT * BYTES_PER_PIXEL)
    (i : ℕ) (hi : i < SIGN_WIDTH * SIGN_HEIGHT) :
    RowBytesAreRGBOfBGRA b frame i := by
  have hw : 0 < SIGN_WIDTH := by norm_num [SIGN_WIDTH]
  have hrow : i / SIGN_WIDTH < SIGN_HEIGHT := Nat.div_lt_of_lt_mul hi
  have hcol : i % SIGN_WIDTH < SIGN_WIDTH := Nat.mod_lt _ hw
  have hpix : i / SIGN_WIDTH * SIGN_WIDTH + i % SIGN_WIDTH = i := by
    simp only [SIGN_WIDTH]
    omega
  refine ⟨rowPacketPayload frame (i / SIGN_WIDTH),
    senderIteration_getD_row b frame h _ hrow _, ?_, ?_, ?_⟩
  · have h0 := rowPacketPayload_getD_pixel frame (i / SIGN_WIDTH) (i % SIGN_WIDTH)
      0 hcol (by norm_num)
    rw [hpix] at h0
    have hidx : ROW_HEADER_SIZE + (3 * (i % SIGN_WIDTH) + 0)
        = ROW_HEADER_SIZE + 3 * (i % SIGN_WIDTH) := by omega
    rw [hidx] at h0
    simpa [pixelTriple] using h0
  · have h1 := rowPacketPayload_getD_pixel frame (i / SIGN_WIDTH) (i % SIGN_WIDTH)
      1 hcol (by norm_num)
    rw [hpix] at h1
    have hidx : ROW_HEADER_SIZE + (3 * (i % SIGN_WIDTH) + 1)
        = ROW_HEADER_SIZE + 3 * (i % SIGN_WIDTH) + 1 := by omega
    rw [hidx] at h1
    simpa [pixelTriple] using h1
  · have h2 := rowPacketPayload_getD_pixel frame (i / SIGN_WIDTH) (i % SIGN_WIDTH)
      2 hcol (by norm_num)
    rw [hpix] at h2
    have hidx : ROW_HEADER_SIZE + (3 * (i % SIGN_WIDTH) + 2)
        = ROW_HEADER_SIZE + 3 * (i % SIGN_WIDTH) + 2 := by omega
    rw [hidx] at h2
    simpa [pixelTriple] using h2

/-- Witness for C2 on the all-zero valid frame, pixel 0. -/
theorem row_bytes_are_rgb_of_bgra_witness :
    ((List.replicate (SIGN_WIDTH * SIGN_HEIGHT * BYTES_PER_PIXEL) 0).length
        = SIGN_WIDTH * SIGN_HEIGHT * BYTES_PER_PIXEL ∧
      0 < SIGN_WIDTH * SIGN_HEIGHT) ∧
    RowBytesAreRGBOfBGRA 0
      (List.replicate (SIGN_WIDTH * SIGN_HEIGHT * BYTES_PER_PIXEL) 0) 0 :=
  ⟨⟨List.length_replicate _ _, by norm_num [SIGN_WIDTH, SIGN_HEIGHT]⟩,
    row_bytes_are_rgb_of_bgra 0 _ (List.length_replicate _ _) 0
      (by norm_num [SIGN_WIDTH, SIGN_HEIGHT])⟩

end P2P
